import Mathlib

/-!
Verification of the SnapTab receipt-capture application.

This file gives a shallow embedding of the parts of the code base relevant
to the Google Drive integration (`src/lib/google-drive.ts`,
`src/hooks/useGoogleDrive.ts`), the receipt upload hook
(`src/hooks/useReceiptUpload.ts`) and the pages `Receipts.tsx`,
`ReceiptDetail.tsx`, together with theorems about them.

HTTP interactions are embedded by passing the response of each `fetch`
call explicitly (the functions in the source are single-request /
single-response, orchestrated sequentially); JavaScript strings are
`String`, nullable values are `Option`, thrown exceptions are
`Except.error` carrying the error message.
-/

namespace SnapTab

/-- JavaScript `v || d` for a nullable string `v`: `null` and the empty
string are falsy, every other string is returned unchanged. -/
def jsOr (v : Option String) (d : String) : String :=
  match v with
  | none => d
  | some s => if s = "" then d else s

/-- JavaScript truthiness of a nullable string: `null` and `""` are falsy. -/
def jsTruthy (v : Option String) : Bool :=
  match v with
  | none => false
  | some s => s ≠ ""

/-- JavaScript `String.prototype.includes`: substring test. -/
def jsIncludes (s pat : String) : Bool :=
  decide (pat.data <:+: s.data)

/-- Shape of the Google user info record kept by the hook. -/
structure GoogleUser where
  email : String
  name : String
  picture : Option String
  deriving Repr, DecidableEq

/-- A binary blob: its byte contents and its MIME content type. -/
structure Blob where
  bytes : List (Fin 256)
  type : String
  deriving Repr, DecidableEq

/-- The `DriveFile` interface of `google-drive.ts`. -/
structure DriveFile where
  id : String
  name : String
  mimeType : String
  webViewLink : Option String
  deriving Repr, DecidableEq

/-! ## Base64 (`btoa` and the standard encoding) -/

/-- The standard base64 alphabet (RFC 4648 §4). -/
def base64Alphabet : String :=
  "ABCDEFGHIJKLMNOPQRSTUVWXYZabcdefghijklmnopqrstuvwxyz0123456789+/"

/-- Character of the base64 alphabet at a sextet value. -/
def b64char (n : Nat) : Char :=
  base64Alphabet.data.getD n (Char.ofNat 63)

/-- The encoding loop of the browser primitive `btoa`, on the code points
of the input string (each `≤ 255`): groups of three 8-bit values become
four alphabet characters, a final group of one or two values is padded
with `=`.  Written with per-byte arithmetic, the way an imperative
`btoa` walks the input. -/
def btoaEncode : List Nat → String
  | [] => ""
  | [a] =>
    ⟨[b64char (a / 4), b64char (a % 4 * 16), Char.ofNat 61, Char.ofNat 61]⟩
  | [a, b] =>
    ⟨[b64char (a / 4), b64char (a % 4 * 16 + b / 16), b64char (b % 16 * 4),
      Char.ofNat 61]⟩
  | a :: b :: c :: rest =>
    (⟨[b64char (a / 4), b64char (a % 4 * 16 + b / 16),
       b64char (b % 16 * 4 + c / 64), b64char (c % 64)]⟩ : String)
      ++ btoaEncode rest

/-- Model of the browser primitive `btoa` (not part of src/, a Web API):
fails (throws `InvalidCharacterError`, modelled as `none`) when a code
point exceeds 255, otherwise base64-encodes the code points. -/
def btoa (s : String) : Option String :=
  if s.data.all (fun c => c.toNat ≤ 255) then
    some (btoaEncode (s.data.map Char.toNat))
  else
    none

/-- The standard base64 encoding of a byte sequence, following the RFC 4648
description: each 24-bit input group (big-endian concatenation of three
bytes) is split into four 6-bit indices; a final 8-bit or 16-bit group is
zero-extended to a whole number of sextets and the output padded with `=`
to a multiple of four characters. -/
def base64EncodeBytes : List Nat → String
  | [] => ""
  | [a] =>
    let n := a * 65536
    ⟨[b64char (n / 262144 % 64), b64char (n / 4096 % 64), Char.ofNat 61,
      Char.ofNat 61]⟩
  | [a, b] =>
    let n := a * 65536 + b * 256
    ⟨[b64char (n / 262144 % 64), b64char (n / 4096 % 64),
      b64char (n / 64 % 64), Char.ofNat 61]⟩
  | a :: b :: c :: rest =>
    let n := a * 65536 + b * 256 + c
    (⟨[b64char (n / 262144 % 64), b64char (n / 4096 % 64),
       b64char (n / 64 % 64), b64char (n % 64)]⟩ : String)
      ++ base64EncodeBytes rest

/-- The byte-to-binary-string reduction of `uploadToDrive`
(`google-drive.ts` lines 94–99): a left fold appending
`String.fromCharCode(byte)` for each byte of the `Uint8Array`. -/
def bytesToBinaryString (bytes : List (Fin 256)) : String :=
  bytes.foldl (fun data b => data ++ ⟨[Char.ofNat b.val]⟩) ""

/-! ## `google-drive.ts`: stateless Drive client functions -/

/-- A single-quote character (code 39), used in Drive query strings. -/
def sq : String := ⟨[Char.ofNat 39]⟩

/-- The folder search query built by `getOrCreateFolder`
(`google-drive.ts` line 22). -/
def folderSearchQuery (folderName : String) : String :=
  "name=" ++ sq ++ folderName ++ sq ++
    " and mimeType=" ++ sq ++ "application/vnd.google-apps.folder" ++ sq ++
    " and trashed=false"

/-- Default folder name of `getOrCreateFolder`. -/
def defaultFolderName : String := "SnapTab Receipts"

/-- A file entry of a Drive search response (`fields: files(id, name)`). -/
structure FileRef where
  id : String
  name : String
  deriving Repr, DecidableEq

/-- Response of the folder search request, as consumed by
`getOrCreateFolder`: HTTP `ok`/`status`, the optional
`error.message` of the error body, and the optional `files` array of the
success body. -/
structure SearchResponse where
  ok : Bool
  status : Nat
  errorMessage : Option String
  files : Option (List FileRef)
  deriving Repr, DecidableEq

/-- Response of the folder create request, as consumed by
`getOrCreateFolder`. -/
structure CreateResponse where
  ok : Bool
  status : Nat
  errorMessage : Option String
  id : String
  deriving Repr, DecidableEq

/-- Requests a Drive-client function can issue, for tracking which HTTP
calls are performed. -/
inductive DriveRequest where
  | searchFolders (query : String)
  | createFolder (name : String)
  deriving Repr, DecidableEq

/-- Error message construction shared by the fetch-error branches of
`google-drive.ts`: `errorData.error?.message || "HTTP " + status`. -/
def httpErrorMessage (errorMessage : Option String) (status : Nat) : String :=
  jsOr errorMessage ("HTTP " ++ toString status)

/-- `getOrCreateFolder` (`google-drive.ts` lines 16–68).  The two `fetch`
responses are passed explicitly; the second component of the result is
the list of HTTP requests actually issued. -/
def getOrCreateFolder (folderName : String) (search : SearchResponse)
    (create : CreateResponse) :
    Except String String × List DriveRequest :=
  let searchReq := DriveRequest.searchFolders (folderSearchQuery folderName)
  if search.ok = false then
    (.error ("Failed to search for folder: " ++
        httpErrorMessage search.errorMessage search.status ++
        " (" ++ toString search.status ++ ")"),
      [searchReq])
  else
    match search.files with
    | some (f :: _) => (.ok f.id, [searchReq])
    | _ =>
      let createReq := DriveRequest.createFolder folderName
      if create.ok = false then
        (.error ("Failed to create folder: " ++
            httpErrorMessage create.errorMessage create.status ++
            " (" ++ toString create.status ++ ")"),
          [searchReq, createReq])
      else
        (.ok create.id, [searchReq, createReq])

/-- Hexadecimal digit characters, lowercase, as produced by JavaScript
number-to-string conversion with radix 16. -/
def hexDigit (n : Nat) : Char :=
  "0123456789abcdef".data.getD n (Char.ofNat 48)

/-- JSON string escaping of one character, per `JSON.stringify`
(ECMAScript QuoteJSONString): quote and backslash get a backslash escape,
the five named control characters get their short escapes, remaining
control characters get a `\u00..` escape, anything else is unchanged. -/
def jsonEscapeChar (c : Char) : String :=
  if c = Char.ofNat 34 then "\\\""
  else if c = Char.ofNat 92 then "\\\\"
  else if c = Char.ofNat 8 then "\\b"
  else if c = Char.ofNat 12 then "\\f"
  else if c = Char.ofNat 10 then "\\n"
  else if c = Char.ofNat 13 then "\\r"
  else if c = Char.ofNat 9 then "\\t"
  else if c.toNat < 32 then
    "\\u00" ++ ⟨[hexDigit (c.toNat / 16), hexDigit (c.toNat % 16)]⟩
  else
    ⟨[c]⟩

/-- `JSON.stringify` of a string value. -/
def jsonQuote (s : String) : String :=
  "\"" ++ String.join (s.data.map jsonEscapeChar) ++ "\""

/-- `JSON.stringify` of the upload metadata object
`\x7b name: fileName, parents: [folderId] \x7d`
(`google-drive.ts` lines 80–83, 90). -/
def metadataString (fileName folderId : String) : String :=
  "\x7b\"name\":" ++ jsonQuote fileName ++
    ",\"parents\":[" ++ jsonQuote folderId ++ "]\x7d"

/-- The fixed multipart boundary of `uploadToDrive`. -/
def boundary : String := "-------314159265358979323846"

/-- The part delimiter of the multipart body. -/
def delimiter : String := "\r\n--" ++ boundary ++ "\r\n"

/-- The closing delimiter of the multipart body. -/
def closeDelimiter : String := "\r\n--" ++ boundary ++ "--"

/-- The multipart request body built by `uploadToDrive`
(`google-drive.ts` lines 86–109); `none` if `btoa` rejects the binary
string (it never does, see `btoa_bytesToBinaryString`). -/
def uploadRequestBody (blob : Blob) (fileName folderId : String) :
    Option String :=
  (btoa (bytesToBinaryString blob.bytes)).map (fun base64Data =>
    delimiter ++
    "Content-Type: application/json\r\n\r\n" ++
    metadataString fileName folderId ++
    delimiter ++
    "Content-Type: " ++ blob.type ++ "\r\n" ++
    "Content-Transfer-Encoding: base64\r\n\r\n" ++
    base64Data ++
    closeDelimiter)

/-- Response of the multipart upload request, as consumed by
`uploadToDrive`: HTTP `ok`/`status`, the optional `error.message` of the
error body, and the `DriveFile` parsed from the success body. -/
structure UploadResponse where
  ok : Bool
  status : Nat
  errorMessage : Option String
  file : DriveFile
  deriving Repr, DecidableEq

/-- The response handling of `uploadToDrive` (`google-drive.ts` lines
123–129): non-ok throws, ok returns the parsed `DriveFile`. -/
def uploadHandleResponse (resp : UploadResponse) : Except String DriveFile :=
  if resp.ok = false then
    .error ("Failed to upload file: " ++
      httpErrorMessage resp.errorMessage resp.status ++
      " (" ++ toString resp.status ++ ")")
  else
    .ok resp.file

/-- `uploadToDrive` (`google-drive.ts` lines 73–130): the body it sends
and the result of handling the upload response. -/
def uploadToDrive (blob : Blob) (fileName folderId : String)
    (resp : UploadResponse) : Option String × Except String DriveFile :=
  (uploadRequestBody blob fileName folderId, uploadHandleResponse resp)

/-- `fetchImageAsBlob` (`google-drive.ts` lines 135–141): the image fetch
response is passed as its `ok` flag and body blob. -/
def fetchImageAsBlob (respOk : Bool) (respBlob : Blob) : Except String Blob :=
  if respOk = false then .error "Failed to fetch image" else .ok respBlob

/-- Response of the folder metadata request of `getFolderLink`. -/
structure FolderLinkResponse where
  ok : Bool
  webViewLink : Option String
  deriving Repr, DecidableEq

/-- `getFolderLink` (`google-drive.ts` lines 146–166): never throws, falls
back to the direct folder URL when the API fails or returns no link. -/
def getFolderLink (resp : FolderLinkResponse) (folderId : String) : String :=
  let fallback := "https://drive.google.com/drive/folders/" ++ folderId
  if resp.ok = false then fallback
  else jsOr resp.webViewLink fallback

/-- Response of the permission create request of `shareFolderWithEmail`. -/
structure ShareResponse where
  ok : Bool
  status : Nat
  errorMessage : Option String
  deriving Repr, DecidableEq

/-- `shareFolderWithEmail` (`google-drive.ts` lines 171–198): non-ok
throws (without the status suffix used elsewhere). -/
def shareFolderWithEmail (resp : ShareResponse) : Except String Unit :=
  if resp.ok = false then
    .error ("Failed to share folder: " ++
      httpErrorMessage resp.errorMessage resp.status)
  else
    .ok ()

/-- Modelled from the spec: `searchFileByName` is imported by
`useGoogleDrive.ts` from `google-drive.ts` but its definition is not under
src/ (the copy of `google-drive.ts` ends after `fetchImageAsBlob`).  The
spec lists it among the stateless Drive client functions ("file search"):
a single HTTP search that either fails or yields the id of a matching file
(or none).  Its outcome is therefore passed through unchanged. -/
def searchFileByName (result : Except String (Option String)) :
    Except String (Option String) :=
  result

/-- Modelled from the spec: `deleteFile` is imported by `useGoogleDrive.ts`
from `google-drive.ts` but its definition is not under src/.  The spec
lists it among the stateless Drive client functions ("file delete"): a
single HTTP delete that either succeeds or fails.  Its outcome is passed
through unchanged. -/
def deleteFile (result : Except String Unit) : Except String Unit :=
  result

/-! ## `useGoogleDrive.ts`: the Drive hook

The hook keeps the access token, the user record and the cached folder id
in `localStorage` and in React state, always updating both together; the
embedding keeps them in one `DriveState`. -/

/-- The persistent client-side state owned by the hook: the three
`localStorage` keys (token, user, folder id). -/
structure DriveState where
  accessToken : Option String
  user : Option GoogleUser
  folderId : Option String
  deriving Repr, DecidableEq

/-- `disconnect` (`useGoogleDrive.ts` lines 235–243): removes all three
stored values. -/
def disconnect (_st : DriveState) : DriveState :=
  ⟨none, none, none⟩

/-- `isConnected` as returned by the hook:
`!!accessToken && !!user` (line 339). -/
def isConnected (st : DriveState) : Bool :=
  jsTruthy st.accessToken && st.user.isSome

/-- The HTTP responses an invocation of a hook operation can consume, one
field per `fetch` the operation may perform. -/
structure DriveEnv where
  userinfoOk : Bool
  searchResp : SearchResponse
  createResp : CreateResponse
  fetchOk : Bool
  fetchBlob : Blob
  uploadResp : UploadResponse
  folderLinkResp : FolderLinkResponse
  shareResp : ShareResponse
  fileSearchResult : Except String (Option String)
  deleteFileResult : Except String Unit

/-- `ensureFolderId` (`useGoogleDrive.ts` lines 245–254): throws when not
connected, returns the cached folder id when truthy, otherwise runs
`getOrCreateFolder` and caches the result. -/
def ensureFolderId (env : DriveEnv) (st : DriveState) :
    Except String String × DriveState :=
  if jsTruthy st.accessToken = false then
    (.error "Not connected to Google Drive", st)
  else if jsTruthy st.folderId then
    (.ok (st.folderId.getD ""), st)
  else
    match (getOrCreateFolder defaultFolderName env.searchResp
        env.createResp).1 with
    | .error e => (.error e, st)
    | .ok id => (.ok id, { st with folderId := some id })

/-- The error message thrown on a failed token check and after an
authorization failure. -/
def sessionExpiredMessage : String :=
  "Session expired. Please reconnect to Google Drive."

/-- The authorization-failure test of `uploadReceipt` catch clause
(line 278): the error message includes `401`, `Invalid Credentials` or
`unauthorized`. -/
def authFailure (msg : String) : Bool :=
  jsIncludes msg "401" || jsIncludes msg "Invalid Credentials" ||
    jsIncludes msg "unauthorized"

/-- `uploadReceipt` (`useGoogleDrive.ts` lines 256–288): resolves to
`null` without a token; validates the token against the userinfo
endpoint, disconnecting and throwing on failure; then ensures the folder,
fetches the image and uploads it; the catch clause disconnects and
rethrows a session-expired error when the error message indicates an
authorization failure. -/
def uploadReceipt (env : DriveEnv) (st : DriveState) :
    Except String (Option String) × DriveState :=
  if jsTruthy st.accessToken = false then (.ok none, st)
  else
    let attempt : Except String (Option String) × DriveState :=
      if env.userinfoOk = false then
        (.error sessionExpiredMessage, disconnect st)
      else
        match ensureFolderId env st with
        | (.error e, st') => (.error e, st')
        | (.ok _folderId, st') =>
          match fetchImageAsBlob env.fetchOk env.fetchBlob with
          | .error e => (.error e, st')
          | .ok _blob =>
            match uploadHandleResponse env.uploadResp with
            | .error e => (.error e, st')
            | .ok file => (.ok (some (jsOr file.webViewLink file.id)), st')
    match attempt with
    | (.error e, st') =>
      if authFailure e then (.error sessionExpiredMessage, disconnect st')
      else (.error e, st')
    | ok => ok

/-- `openFolder` (`useGoogleDrive.ts` lines 290–301): throws without a
token, ensures the folder, gets its link and opens it (the opened link is
the third component; `none` when the operation threw before opening). -/
def openFolder (env : DriveEnv) (st : DriveState) :
    Except String Unit × DriveState × Option String :=
  if jsTruthy st.accessToken = false then
    (.error "Not connected to Google Drive", st, none)
  else
    match ensureFolderId env st with
    | (.error e, st') => (.error e, st', none)
    | (.ok folderId, st') =>
      (.ok (), st', some (getFolderLink env.folderLinkResp folderId))

/-- `shareFolder` (`useGoogleDrive.ts` lines 303–316): throws without a
token, ensures the folder and creates the permission. -/
def shareFolder (env : DriveEnv) (st : DriveState) :
    Except String Unit × DriveState :=
  if jsTruthy st.accessToken = false then
    (.error "Not connected to Google Drive", st)
  else
    match ensureFolderId env st with
    | (.error e, st') => (.error e, st')
    | (.ok _folderId, st') => (shareFolderWithEmail env.shareResp, st')

/-- The search term `deleteReceipt` queries Drive with (line 324). -/
def receiptSearchTerm (vendor receiptDate : Option String) : String :=
  "receipt_" ++ jsOr vendor "unknown" ++ "_" ++ jsOr receiptDate ""

/-- `deleteReceipt` (`useGoogleDrive.ts` lines 318–336): returns
immediately when token or cached folder id is missing (third component:
whether Drive was contacted); otherwise searches for the file and deletes
it when found, catching (and only logging) every error. -/
def deleteReceipt (env : DriveEnv) (st : DriveState)
    (vendor receiptDate : Option String) :
    Except String Unit × DriveState × Bool :=
  if jsTruthy st.accessToken = false || jsTruthy st.folderId = false then
    (.ok (), st, false)
  else
    let _searchTerm := receiptSearchTerm vendor receiptDate
    let attempt : Except String Unit :=
      match searchFileByName env.fileSearchResult with
      | .error e => .error e
      | .ok fileId =>
        if jsTruthy fileId then
          match deleteFile env.deleteFileResult with
          | .error e => .error e
          | .ok _ => .ok ()
        else .ok ()
    match attempt with
    | .error _ => (.ok (), st, true)
    | .ok _ => (.ok (), st, true)

/-- `fetchUserInfo` (`useGoogleDrive.ts` lines 183–211): on a non-ok
userinfo response all three stored values are removed; on success the
user record is stored. -/
def fetchUserInfo (respOk : Bool) (userInfo : GoogleUser)
    (st : DriveState) : DriveState :=
  if respOk = false then ⟨none, none, none⟩
  else { st with user := some userInfo }

/-- `connect` (`useGoogleDrive.ts` lines 219–233): the login flow either
fails (only logged) or yields an access token, which is stored and
followed by `fetchUserInfo`. -/
def connect (loginToken : Option String) (userinfoOk : Bool)
    (userInfo : GoogleUser) (st : DriveState) : DriveState :=
  match loginToken with
  | none => st
  | some tok =>
    fetchUserInfo userinfoOk userInfo { st with accessToken := some tok }

/-- The record returned by `useGoogleDrive`, operations included
(functions of the explicit HTTP responses and the stored state). -/
structure UseGoogleDriveReturn where
  isConnected : Bool
  isLoading : Bool
  isConfigured : Bool
  user : Option GoogleUser
  connectOp : Option String → Bool → GoogleUser → DriveState → DriveState
  disconnectOp : DriveState → DriveState
  uploadReceiptOp :
    DriveEnv → DriveState → Except String (Option String) × DriveState
  openFolderOp :
    DriveEnv → DriveState → Except String Unit × DriveState × Option String
  shareFolderOp : DriveEnv → DriveState → Except String Unit × DriveState
  deleteReceiptOp : DriveEnv → Option String → Option String →
    DriveState → Except String Unit × DriveState × Bool

/-- `useGoogleDrive` (`useGoogleDrive.ts` lines 353–372): when the client
id environment variable is empty (falsy) it returns the unconfigured
stub, whose operations neither read the responses nor change the state;
otherwise it returns the internal hook. -/
def useGoogleDrive (clientId : String) (st : DriveState) :
    UseGoogleDriveReturn :=
  if clientId = "" then
    { isConnected := false
      isLoading := false
      isConfigured := false
      user := none
      connectOp := fun _ _ _ s => s
      disconnectOp := fun s => s
      uploadReceiptOp := fun _ s => (.ok none, s)
      openFolderOp := fun _ s => (.ok (), s, none)
      shareFolderOp := fun _ s => (.ok (), s)
      deleteReceiptOp := fun _ _ _ s => (.ok (), s, false) }
  else
    { isConnected := isConnected st
      isLoading := false
      isConfigured := true
      user := st.user
      connectOp := connect
      disconnectOp := disconnect
      uploadReceiptOp := uploadReceipt
      openFolderOp := openFolder
      shareFolderOp := shareFolder
      deleteReceiptOp := fun env v d s => deleteReceipt env s v d }

/-! ## Pages: `Receipts.tsx` and `ReceiptDetail.tsx` -/

/-- A receipt row as the pages consume it.  `amount` is the database
`number | null` column; only its `toString()` rendering is observed by
the embedded code, so the field carries that decimal rendering (the
ECMAScript number-to-string conversion itself is outside the
embedding). -/
structure Receipt where
  id : String
  receipt_date : Option String
  vendor : Option String
  amount : Option String
  category : Option String
  notes : Option String
  is_reconciled : Bool
  image_path : String
  deriving Repr, DecidableEq

/-- `userRole === "owner"` (`Receipts.tsx` line 112,
`ReceiptDetail.tsx` line 183); `userRole` is the fetched role or
`null`. -/
def isOwner (role : Option String) : Bool :=
  role == some "owner"

/-- The `Add` button of `Receipts.tsx` (lines 133–138) is rendered iff
`isOwner`. -/
def receiptsShowAddButton (role : Option String) : Bool :=
  isOwner role

/-- The `Capture your first receipt` button of `Receipts.tsx`
(lines 151–163) is rendered iff the list is empty and `isOwner`. -/
def receiptsShowCaptureFirst (role : Option String)
    (receiptsEmpty : Bool) : Bool :=
  receiptsEmpty && isOwner role

/-- The `Export CSV` button of `Receipts.tsx` (lines 144–147) is rendered
unconditionally. -/
def receiptsShowExportButton : Bool :=
  true

/-- `showReconcileToggle` passed to each `ReceiptCard`
(`Receipts.tsx` line 170); the card renders the checkbox iff this flag. -/
def receiptsShowReconcileToggle (role : Option String) : Bool :=
  !isOwner role

/-- The `Edit` button of `ReceiptDetail.tsx` (lines 208–218) is rendered
iff `isOwner && !isEditing`. -/
def detailShowEditButton (role : Option String) (isEditing : Bool) : Bool :=
  isOwner role && !isEditing

/-- The `Delete` button of `ReceiptDetail.tsx` (lines 219–238) is rendered
iff `isOwner && !isEditing`. -/
def detailShowDeleteButton (role : Option String) (isEditing : Bool) : Bool :=
  isOwner role && !isEditing

/-- The reconcile checkbox of `ReceiptDetail.tsx` (lines 272–283) is
rendered iff `!isOwner`. -/
def detailShowReconcileToggle (role : Option String) : Bool :=
  !isOwner role

/-- The `isReadOnly` flag of the receipt form in `ReceiptDetail.tsx`
(line 291): `!isEditing || !isOwner`. -/
def detailFormReadOnly (role : Option String) (isEditing : Bool) : Bool :=
  !isEditing || !isOwner role

/-- One CSV cell list of `handleExportCSV` (`Receipts.tsx` lines 86–93). -/
def csvRow (r : Receipt) : List String :=
  [jsOr r.receipt_date "", jsOr r.vendor "", jsOr r.amount "",
    jsOr r.category "", jsOr r.notes "",
    if r.is_reconciled then "Yes" else "No"]

/-- The header cells of `handleExportCSV` (`Receipts.tsx` line 85). -/
def csvHeaders : List String :=
  ["Date", "Vendor", "Amount", "Category", "Notes", "Reconciled"]

/-- JavaScript `Array.prototype.join`: empty string for an empty array,
otherwise the first element followed by separator-element pairs. -/
def jsJoin (sep : String) : List String → String
  | [] => ""
  | x :: rest => rest.foldl (fun acc y => acc ++ sep ++ y) x

/-- One output line: every cell wrapped in double quotes, joined by
commas (`Receipts.tsx` line 96). -/
def csvLine (row : List String) : String :=
  jsJoin "," (row.map (fun cell => "\"" ++ cell ++ "\""))

/-- The full CSV text (`Receipts.tsx` lines 95–97). -/
def csvContent (receipts : List Receipt) : String :=
  jsJoin "\n" ((csvHeaders :: receipts.map csvRow).map csvLine)

/-- `handleExportCSV` (`Receipts.tsx` lines 79–110): with an empty list it
returns before building anything (a toast only, no file); otherwise the
produced file holds `csvContent`. -/
def handleExportCSV (receipts : List Receipt) : Option String :=
  if receipts.isEmpty then none else some (csvContent receipts)

/-- Outcome of the receipt deletion flow of `ReceiptDetail.tsx`. -/
inductive DeleteOutcome where
  | navigated
  | errorToast (msg : String)
  deriving Repr, DecidableEq

/-- `handleDelete` (`ReceiptDetail.tsx` lines 130–159): the storage
removal result is not inspected; a database deletion error aborts with an
error toast; the Drive deletion runs inside its own `try`/`catch` whose
outcome is discarded, after which the success toast and the navigation
always happen. -/
def handleDelete (_storageError : Option String) (dbError : Option String)
    (_isDriveConnected : Bool) (_driveOutcome : Except String Unit) :
    DeleteOutcome :=
  match dbError with
  | some e => .errorToast e
  | none => .navigated

/-- The Drive file name under which `ReceiptDetail.tsx` uploads the image
(line 265). -/
def driveUploadFileName (vendor : Option String) (id : String)
    (receiptDate : Option String) : String :=
  "receipt-" ++ jsOr vendor id ++ "-" ++ jsOr receiptDate "unknown" ++ ".jpg"

/-! ## `useReceiptUpload.ts` -/

/-- A write against the `receipts` object store, with its `upsert`
option. -/
structure StorageCall where
  path : String
  upsert : Bool
  deriving Repr, DecidableEq

/-- `uploadImage` (`useReceiptUpload.ts` lines 9–40): with no
authenticated user it throws (caught: toast, `null`) without touching the
store; otherwise it uploads under
`user.id / Date.now() . (last segment of the file name split on ".")`
with `upsert: false`, returning the path, or `null` when the storage
client reports an error.  The second component lists the storage writes
issued. -/
def uploadImage (user : Option String) (fileName : String) (now : Nat)
    (uploadError : Option String) : Option String × List StorageCall :=
  match user with
  | none => (none, [])
  | some uid =>
    let fileExt := (fileName.splitOn ".").getLastD ""
    let path := uid ++ "/" ++ toString now ++ "." ++ fileExt
    match uploadError with
    | some _ => (none, [⟨path, false⟩])
    | none => (some path, [⟨path, false⟩])

/-! ## Helper lemmas -/

/-- `Char.ofNat` and `Char.toNat` round-trip below 256. -/
theorem toNat_ofNat_of_lt {n : Nat} (h : n < 256) : (Char.ofNat n).toNat = n := by
  have hv : n.isValidChar := Or.inl (by omega)
  rw [Char.ofNat, dif_pos hv]
  simp [Char.ofNatAux, Char.toNat, UInt32.toNat, BitVec.toNat_ofNatLt]

theorem foldl_append_data (bytes : List (Fin 256)) :
    ∀ init : String,
      (bytes.foldl (fun data b => data ++ ⟨[Char.ofNat b.val]⟩) init).data =
        init.data ++ bytes.map (fun b => Char.ofNat b.val) := by
  induction bytes with
  | nil => intro init; simp
  | cons b rest ih =>
    intro init
    simp only [List.foldl_cons, List.map_cons, ih]
    simp [String.data_append]

/-- The characters of the binary string built by the `reduce` loop are
exactly the bytes, as characters. -/
theorem bytesToBinaryString_data (bytes : List (Fin 256)) :
    (bytesToBinaryString bytes).data =
      bytes.map (fun b => Char.ofNat b.val) := by
  simpa using foldl_append_data bytes ""

/-- The per-byte arithmetic of the `btoa` loop agrees with the 24-bit
group arithmetic of the RFC description, on byte-valued input. -/
theorem btoaEncode_eq_base64EncodeBytes :
    ∀ l : List Nat, (∀ x ∈ l, x < 256) → btoaEncode l = base64EncodeBytes l
  | [], _ => rfl
  | [a], h => by
    have ha : a < 256 := h a (by simp)
    simp only [btoaEncode, base64EncodeBytes]
    have h1 : a * 65536 / 262144 % 64 = a / 4 := by omega
    have h2 : a * 65536 / 4096 % 64 = a % 4 * 16 := by omega
    rw [h1, h2]
  | [a, b], h => by
    have ha : a < 256 := h a (by simp)
    have hb : b < 256 := h b (by simp)
    simp only [btoaEncode, base64EncodeBytes]
    have h1 : (a * 65536 + b * 256) / 262144 % 64 = a / 4 := by omega
    have h2 : (a * 65536 + b * 256) / 4096 % 64 = a % 4 * 16 + b / 16 := by
      omega
    have h3 : (a * 65536 + b * 256) / 64 % 64 = b % 16 * 4 := by omega
    rw [h1, h2, h3]
  | a :: b :: c :: rest, h => by
    have ha : a < 256 := h a (by simp)
    have hb : b < 256 := h b (by simp)
    have hc : c < 256 := h c (by simp)
    have ih := btoaEncode_eq_base64EncodeBytes rest
      (fun x hx => h x (by simp [hx]))
    simp only [btoaEncode, base64EncodeBytes]
    have h1 : (a * 65536 + b * 256 + c) / 262144 % 64 = a / 4 := by omega
    have h2 : (a * 65536 + b * 256 + c) / 4096 % 64 = a % 4 * 16 + b / 16 := by
      omega
    have h3 : (a * 65536 + b * 256 + c) / 64 % 64 = b % 16 * 4 + c / 64 := by
      omega
    have h4 : (a * 65536 + b * 256 + c) % 64 = c % 64 := by omega
    rw [h1, h2, h3, h4, ih]

/-- `btoa` accepts the binary string of any byte sequence and encodes the
bytes. -/
theorem btoa_bytesToBinaryString (bytes : List (Fin 256)) :
    btoa (bytesToBinaryString bytes) =
      some (btoaEncode (bytes.map Fin.val)) := by
  have hdata := bytesToBinaryString_data bytes
  have hall : (bytesToBinaryString bytes).data.all
      (fun c => c.toNat ≤ 255) = true := by
    rw [hdata]
    simp only [List.all_eq_true, List.mem_map]
    rintro c ⟨b, _, rfl⟩
    have := toNat_ofNat_of_lt b.isLt
    simp [this]
    omega
  rw [btoa, if_pos hall, hdata]
  congr 2
  rw [List.map_map]
  exact List.map_congr_left
    (fun (b : Fin 256) _ => by
      simp only [Function.comp]
      exact toNat_ofNat_of_lt b.isLt)

/-! ## Claims -/

/-- C9: For every finite byte sequence, the conversion performed by
`uploadToDrive` — reducing the `Uint8Array` to a binary string with
`String.fromCharCode` byte by byte and applying `btoa` — yields exactly
the standard base64 encoding of those bytes (including correct padding
for lengths not divisible by 3). -/
theorem fromCharCode_btoa_is_standard_base64 (bytes : List (Fin 256)) :
    btoa (bytesToBinaryString bytes) =
      some (base64EncodeBytes (bytes.map Fin.val)) := by
  rw [btoa_bytesToBinaryString]
  congr 1
  exact btoaEncode_eq_base64EncodeBytes _ (by
    simp only [List.mem_map]
    rintro x ⟨b, _, rfl⟩
    exact b.isLt)

/-- C1: For every access token, blob, file name, and folder id,
`uploadToDrive` sends a request body that is exactly the concatenation
of: the delimiter (CRLF, two dashes, the fixed boundary
`-------314159265358979323846`, CRLF), a `Content-Type: application/json`
header and blank line, the JSON serialization of the metadata object
(name and single-element parents array), the delimiter again, a header
block with the blob's content type and
`Content-Transfer-Encoding: base64` and a blank line, the base64
encoding of the blob's bytes, and the closing delimiter (CRLF, two
dashes, boundary, two dashes); on an ok response it returns the parsed
`DriveFile`, and on a non-ok response it throws.  (The access token only
enters the `Authorization` header, not the body.) -/
theorem uploadToDrive_multipart_body_and_response
    (blob : Blob) (fileName folderId : String) (resp : UploadResponse) :
    (uploadToDrive blob fileName folderId resp).1 =
      some (("\r\n--" ++ "-------314159265358979323846" ++ "\r\n") ++
        "Content-Type: application/json\r\n\r\n" ++
        ("\x7b\"name\":" ++ jsonQuote fileName ++
          ",\"parents\":[" ++ jsonQuote folderId ++ "]\x7d") ++
        ("\r\n--" ++ "-------314159265358979323846" ++ "\r\n") ++
        ("Content-Type: " ++ blob.type ++ "\r\n") ++
        "Content-Transfer-Encoding: base64\r\n\r\n" ++
        base64EncodeBytes (blob.bytes.map Fin.val) ++
        ("\r\n--" ++ "-------314159265358979323846" ++ "--")) ∧
    (resp.ok = true →
      (uploadToDrive blob fileName folderId resp).2 = .ok resp.file) ∧
    (resp.ok = false →
      ∃ e, (uploadToDrive blob fileName folderId resp).2 = .error e) := by
  refine ⟨?_, ?_, ?_⟩
  · show uploadRequestBody blob fileName folderId = _
    rw [uploadRequestBody, btoa_bytesToBinaryString,
      btoaEncode_eq_base64EncodeBytes (blob.bytes.map Fin.val) (by
        simp only [List.mem_map]
        rintro x ⟨b, _, rfl⟩
        exact b.isLt),
      Option.map_some']
    congr 1
    simp only [delimiter, boundary, closeDelimiter, metadataString,
      String.append_assoc]
  · intro h
    show uploadHandleResponse resp = _
    rw [uploadHandleResponse, h]
    simp
  · intro h
    show ∃ e, uploadHandleResponse resp = _
    rw [uploadHandleResponse, h]
    simp

/-- Witness for C1 at a concrete two-byte JPEG blob and an ok
response. -/
theorem uploadToDrive_multipart_body_and_response_witness :
    (uploadToDrive ⟨[(72 : Fin 256), (105 : Fin 256)], "image/jpeg"⟩
        "receipt-A-2024.jpg" "fid1"
        ⟨true, 200, none, ⟨"id1", "receipt-A-2024.jpg", "image/jpeg",
          some "https://link"⟩⟩).2 =
      .ok ⟨"id1", "receipt-A-2024.jpg", "image/jpeg", some "https://link"⟩ :=
  (uploadToDrive_multipart_body_and_response
    ⟨[(72 : Fin 256), (105 : Fin 256)], "image/jpeg"⟩
    "receipt-A-2024.jpg" "fid1"
    ⟨true, 200, none, ⟨"id1", "receipt-A-2024.jpg", "image/jpeg",
      some "https://link"⟩⟩).2.1 rfl

/-- C2: For every access token and folder name, `getOrCreateFolder` first
searches Drive for an untrashed folder with that exact name; if the
search response lists at least one file it returns the id of the first
listed file and performs no create request; only when the search returns
zero files (or no `files` array) does it issue a create request,
returning the created folder's id; a non-ok search or create response
throws. -/
theorem getOrCreateFolder_find_or_create (folderName : String)
    (search : SearchResponse) (create : CreateResponse) :
    (getOrCreateFolder folderName search create).2.head? =
      some (.searchFolders (folderSearchQuery folderName)) ∧
    (search.ok = true → ∀ f fs, search.files = some (f :: fs) →
      getOrCreateFolder folderName search create =
        (.ok f.id, [.searchFolders (folderSearchQuery folderName)])) ∧
    (search.ok = true → (search.files = none ∨ search.files = some []) →
      (getOrCreateFolder folderName search create).2 =
        [.searchFolders (folderSearchQuery folderName),
          .createFolder folderName] ∧
      (create.ok = true →
        (getOrCreateFolder folderName search create).1 = .ok create.id) ∧
      (create.ok = false →
        ∃ e, (getOrCreateFolder folderName search create).1 = .error e)) ∧
    (search.ok = false →
      (∃ e, (getOrCreateFolder folderName search create).1 = .error e) ∧
      (getOrCreateFolder folderName search create).2 =
        [.searchFolders (folderSearchQuery folderName)]) := by
  refine ⟨?_, ?_, ?_, ?_⟩
  · rw [getOrCreateFolder]
    rcases hok : search.ok with _ | _
    · simp
    · simp only [Bool.true_eq_false, if_false]
      rcases hf : search.files with _ | ⟨_ | ⟨f, fs⟩⟩ <;>
        simp [hf] <;> split <;> simp
  · intro hok f fs hf
    rw [getOrCreateFolder]
    simp [hok, hf]
  · intro hok hf
    rw [getOrCreateFolder]
    rcases hf with hf | hf <;> simp [hok, hf] <;>
      rcases hcr : create.ok with _ | _ <;> simp [hcr]
  · intro hok
    rw [getOrCreateFolder]
    simp [hok]

/-- Witness for C2: a search listing one existing folder returns its id
with no create call; an empty search with an ok create returns the
created id. -/
theorem getOrCreateFolder_find_or_create_witness :
    getOrCreateFolder "SnapTab Receipts"
        ⟨true, 200, none, some [⟨"fldA", "SnapTab Receipts"⟩]⟩
        ⟨true, 200, none, "fldNew"⟩ =
      (.ok "fldA",
        [.searchFolders (folderSearchQuery "SnapTab Receipts")]) ∧
    (getOrCreateFolder "SnapTab Receipts" ⟨true, 200, none, some []⟩
        ⟨true, 200, none, "fldNew"⟩).1 = .ok "fldNew" :=
  ⟨(getOrCreateFolder_find_or_create "SnapTab Receipts"
      ⟨true, 200, none, some [⟨"fldA", "SnapTab Receipts"⟩]⟩
      ⟨true, 200, none, "fldNew"⟩).2.1 rfl
      ⟨"fldA", "SnapTab Receipts"⟩ [] rfl,
    ((getOrCreateFolder_find_or_create "SnapTab Receipts"
      ⟨true, 200, none, some []⟩
      ⟨true, 200, none, "fldNew"⟩).2.2.1 rfl (Or.inr rfl)).2.1 rfl⟩

theorem jsIncludes_append_right {t pat : String} (s : String)
    (h : jsIncludes t pat = true) : jsIncludes (s ++ t) pat = true := by
  simp only [jsIncludes, decide_eq_true_eq] at h ⊢
  obtain ⟨u, v, huv⟩ := h
  exact ⟨s.data ++ u, v, by rw [String.data_append, ← huv]; simp⟩

theorem jsIncludes_append_left {s pat : String} (t : String)
    (h : jsIncludes s pat = true) : jsIncludes (s ++ t) pat = true := by
  simp only [jsIncludes, decide_eq_true_eq] at h ⊢
  obtain ⟨u, v, huv⟩ := h
  exact ⟨u, v ++ t.data, by rw [String.data_append, ← huv]; simp⟩

/-- `ensureFolderId` never changes the stored token or user. -/
theorem ensureFolderId_preserves_token_user (env : DriveEnv)
    (st : DriveState) :
    ((ensureFolderId env st).2).accessToken = st.accessToken ∧
      ((ensureFolderId env st).2).user = st.user := by
  rw [ensureFolderId]
  split
  · exact ⟨rfl, rfl⟩
  · split
    · exact ⟨rfl, rfl⟩
    · split <;> exact ⟨rfl, rfl⟩

/-- C3 fails on the code: `shareFolder`, with a stored token, user and
folder id, and a permission request answered `401 Invalid Credentials`,
throws an error whose message indicates an authorization failure yet
returns the state unchanged — token, user and folder id all stay stored
and `isConnected` remains true.  (Only `uploadReceipt` checks token
freshness and disconnects.) -/
theorem drive_ops_forced_disconnect_counterexample :
    shareFolder
        ⟨true, ⟨true, 200, none, some []⟩, ⟨true, 200, none, "x"⟩, true,
          ⟨[], "image/jpeg"⟩, ⟨true, 200, none, ⟨"", "", "", none⟩⟩,
          ⟨true, none⟩, ⟨false, 401, some "Invalid Credentials"⟩,
          .ok none, .ok ()⟩
        ⟨some "tok", some ⟨"a@b.c", "A", none⟩, some "fld"⟩ =
      (.error "Failed to share folder: Invalid Credentials",
        ⟨some "tok", some ⟨"a@b.c", "A", none⟩, some "fld"⟩) ∧
    authFailure "Failed to share folder: Invalid Credentials" = true ∧
    isConnected ⟨some "tok", some ⟨"a@b.c", "A", none⟩, some "fld"⟩ =
      true := by
  refine ⟨rfl, by decide, by decide⟩

/-- C3 amended: `uploadReceipt` validates token freshness before use and
on authorization failure (failed token check, or an error message
indicating 401) disconnects, removing token, user and folder id; but
`openFolder`, `shareFolder` and `deleteReceipt` perform no
token-freshness check (their behaviour does not depend on the userinfo
response at all) and never disconnect: the stored token and user survive
them unchanged. -/
theorem drive_ops_disconnect_only_uploadReceipt (env : DriveEnv)
    (st : DriveState) (b : Bool) (v d : Option String) :
    (jsTruthy st.accessToken = true → env.userinfoOk = false →
      uploadReceipt env st = (.error sessionExpiredMessage,
        ⟨none, none, none⟩)) ∧
    (jsTruthy st.accessToken = true → env.userinfoOk = true →
      jsTruthy st.folderId = true → env.fetchOk = true →
      env.uploadResp.ok = false → env.uploadResp.status = 401 →
      uploadReceipt env st = (.error sessionExpiredMessage,
        ⟨none, none, none⟩)) ∧
    ((openFolder env st).2.1.accessToken = st.accessToken ∧
      (openFolder env st).2.1.user = st.user) ∧
    ((shareFolder env st).2.accessToken = st.accessToken ∧
      (shareFolder env st).2.user = st.user) ∧
    (deleteReceipt env st v d).2.1 = st ∧
    openFolder { env with userinfoOk := b } st = openFolder env st ∧
    shareFolder { env with userinfoOk := b } st = shareFolder env st ∧
    deleteReceipt { env with userinfoOk := b } st v d =
      deleteReceipt env st v d := by
  refine ⟨?_, ?_, ?_, ?_, ?_, rfl, rfl, rfl⟩
  · intro htok hinfo
    rw [uploadReceipt]
    simp only [htok, hinfo, Bool.true_eq_false, if_false]
    have : authFailure sessionExpiredMessage = false := by decide
    simp [this, disconnect]
  · intro htok hinfo hfld hfetch hup hstatus
    rw [uploadReceipt]
    simp only [htok, hinfo, Bool.true_eq_false, if_false]
    rw [ensureFolderId]
    simp only [htok, Bool.true_eq_false, if_false, hfld, if_true]
    rw [fetchImageAsBlob]
    simp only [hfetch, Bool.true_eq_false, if_false]
    rw [uploadHandleResponse]
    simp only [hup, if_true, hstatus]
    have hauth : authFailure ("Failed to upload file: " ++
        httpErrorMessage env.uploadResp.errorMessage 401 ++
        " (" ++ toString 401 ++ ")") = true := by
      have h401 : jsIncludes ("Failed to upload file: " ++
          httpErrorMessage env.uploadResp.errorMessage 401 ++
          " (" ++ toString 401 ++ ")") "401" = true := by
        rw [show (toString (401 : Nat)) = "401" from rfl]
        exact jsIncludes_append_left _ (jsIncludes_append_right _ (by decide))
      simp [authFailure, h401]
    simp [hauth, disconnect]
  · have hpres := ensureFolderId_preserves_token_user env st
    rw [openFolder]
    split
    · exact ⟨rfl, rfl⟩
    · rcases h : ensureFolderId env st with ⟨res, st2⟩
      rw [h] at hpres
      cases res <;> simpa using hpres
  · have hpres := ensureFolderId_preserves_token_user env st
    rw [shareFolder]
    split
    · exact ⟨rfl, rfl⟩
    · rcases h : ensureFolderId env st with ⟨res, st2⟩
      rw [h] at hpres
      cases res <;> simpa using hpres
  · rw [deleteReceipt]
    split
    · rfl
    · simp only []
      split <;> rfl

/-- Witness for the amended C3: a failed token check on `uploadReceipt`
with stored credentials clears all three stored values. -/
theorem drive_ops_disconnect_only_uploadReceipt_witness :
    uploadReceipt
        ⟨false, ⟨true, 200, none, some []⟩, ⟨true, 200, none, "x"⟩, true,
          ⟨[], "image/jpeg"⟩, ⟨true, 200, none, ⟨"", "", "", none⟩⟩,
          ⟨true, none⟩, ⟨true, 200, none⟩, .ok none, .ok ()⟩
        ⟨some "tok", some ⟨"a@b.c", "A", none⟩, some "fld"⟩ =
      (.error sessionExpiredMessage, ⟨none, none, none⟩) :=
  (drive_ops_disconnect_only_uploadReceipt
    ⟨false, ⟨true, 200, none, some []⟩, ⟨true, 200, none, "x"⟩, true,
      ⟨[], "image/jpeg"⟩, ⟨true, 200, none, ⟨"", "", "", none⟩⟩,
      ⟨true, none⟩, ⟨true, 200, none⟩, .ok none, .ok ()⟩
    ⟨some "tok", some ⟨"a@b.c", "A", none⟩, some "fld"⟩
    true none none).1 rfl rfl

/-- C4: `deleteReceipt` never rejects: without a token or cached folder
id it returns without contacting Drive; otherwise every error of the
file search or file deletion is caught (only logged); and the deletion
flow of `ReceiptDetail` reaches navigation whenever the database delete
succeeds, regardless of the Drive outcome. -/
theorem deleteReceipt_never_rejects (env : DriveEnv) (st : DriveState)
    (v d : Option String) (storageErr dbErr : Option String)
    (driveConn : Bool) (driveOutcome : Except String Unit) :
    (deleteReceipt env st v d).1 = .ok () ∧
    (jsTruthy st.accessToken = false ∨ jsTruthy st.folderId = false →
      (deleteReceipt env st v d).2.2 = false) ∧
    (dbErr = none →
      handleDelete storageErr dbErr driveConn driveOutcome =
        .navigated) := by
  refine ⟨?_, ?_, ?_⟩
  · rw [deleteReceipt]
    split
    · rfl
    · simp only []
      split <;> rfl
  · intro h
    rw [deleteReceipt]
    rw [if_pos (by rcases h with h | h <;> simp [h])]
  · intro h
    simp [handleDelete, h]

/-- Witness for C4: no token stored, a failing Drive search, a clean
database delete. -/
theorem deleteReceipt_never_rejects_witness :
    (deleteReceipt
        ⟨true, ⟨true, 200, none, some []⟩, ⟨true, 200, none, "x"⟩, true,
          ⟨[], "image/jpeg"⟩, ⟨true, 200, none, ⟨"", "", "", none⟩⟩,
          ⟨true, none⟩, ⟨true, 200, none⟩, .error "HTTP 500", .ok ()⟩
        ⟨none, none, none⟩ (some "Acme") (some "2024-01-31")).2.2 =
      false ∧
    handleDelete none none true (.error "drive failed") = .navigated :=
  ⟨(deleteReceipt_never_rejects
      ⟨true, ⟨true, 200, none, some []⟩, ⟨true, 200, none, "x"⟩, true,
        ⟨[], "image/jpeg"⟩, ⟨true, 200, none, ⟨"", "", "", none⟩⟩,
        ⟨true, none⟩, ⟨true, 200, none⟩, .error "HTTP 500", .ok ()⟩
      ⟨none, none, none⟩ (some "Acme") (some "2024-01-31")
      none none true (.error "drive failed")).2.1 (Or.inl rfl),
    (deleteReceipt_never_rejects
      ⟨true, ⟨true, 200, none, some []⟩, ⟨true, 200, none, "x"⟩, true,
        ⟨[], "image/jpeg"⟩, ⟨true, 200, none, ⟨"", "", "", none⟩⟩,
        ⟨true, none⟩, ⟨true, 200, none⟩, .error "HTTP 500", .ok ()⟩
      ⟨none, none, none⟩ (some "Acme") (some "2024-01-31")
      none none true (.error "drive failed")).2.2 rfl⟩

/-- C5: On the receipt pages, the create controls (`Add`, `Capture your
first receipt`), the `Edit` control and the `Delete` control are rendered
iff the role is `owner`; the reconciliation toggle is rendered iff the
role is not `owner`; and for a non-owner the receipt form is read-only
(only the reconcile flag is changeable) while the CSV export stays
available. -/
theorem role_gating_owner_viewer (role : Option String)
    (isEditing : Bool) :
    (receiptsShowAddButton role = true ↔ role = some "owner") ∧
    (receiptsShowCaptureFirst role true = true ↔ role = some "owner") ∧
    (detailShowEditButton role false = true ↔ role = some "owner") ∧
    (detailShowDeleteButton role false = true ↔ role = some "owner") ∧
    (detailShowReconcileToggle role = true ↔ ¬role = some "owner") ∧
    (receiptsShowReconcileToggle role = true ↔ ¬role = some "owner") ∧
    (¬role = some "owner" →
      detailShowEditButton role isEditing = false ∧
      detailShowDeleteButton role isEditing = false ∧
      detailFormReadOnly role isEditing = true ∧
      receiptsShowExportButton = true) := by
  refine ⟨?_, ?_, ?_, ?_, ?_, ?_, fun h => ?_⟩ <;>
    simp [receiptsShowAddButton, receiptsShowCaptureFirst,
      detailShowEditButton, detailShowDeleteButton,
      detailShowReconcileToggle, receiptsShowReconcileToggle,
      detailFormReadOnly, receiptsShowExportButton, isOwner, *]

/-- Witness for C5 at the viewer role: toggle rendered, form read-only,
export available, edit hidden. -/
theorem role_gating_owner_viewer_witness :
    detailShowEditButton (some "viewer") false = false ∧
    detailFormReadOnly (some "viewer") true = true ∧
    receiptsShowExportButton = true := by
  have h := (role_gating_owner_viewer (some "viewer") true).2.2.2.2.2.2
    (by simp)
  have h3 := (role_gating_owner_viewer (some "viewer") false).2.2.1
  exact ⟨Bool.eq_false_iff.mpr (fun hc => by simpa using h3.mp hc),
    h.2.2.1, h.2.2.2⟩

/-- C6: With a non-empty fetched list the CSV export produces the header
row followed by exactly one row per receipt in list order — every cell
double-quoted, null fields as the empty string, the amount via its
`toString` rendering, `is_reconciled` as `Yes`/`No`, rows joined by
`"\n"`; with an empty list no file is produced. -/
theorem export_csv_format (receipts : List Receipt) :
    handleExportCSV [] = none ∧
    (receipts ≠ [] →
      handleExportCSV receipts = some (jsJoin "\n"
        ("\"Date\",\"Vendor\",\"Amount\",\"Category\",\"Notes\",\"Reconciled\"" ::
          receipts.map (fun r =>
            "\"" ++ jsOr r.receipt_date "" ++ "\"" ++ "," ++
            "\"" ++ jsOr r.vendor "" ++ "\"" ++ "," ++
            "\"" ++ jsOr r.amount "" ++ "\"" ++ "," ++
            "\"" ++ jsOr r.category "" ++ "\"" ++ "," ++
            "\"" ++ jsOr r.notes "" ++ "\"" ++ "," ++
            "\"" ++ (if r.is_reconciled then "Yes" else "No") ++ "\"")))) := by
  constructor
  · rfl
  · intro h
    rw [handleExportCSV, if_neg (by simpa [List.isEmpty_iff] using h)]
    have hhead : csvLine csvHeaders =
        "\"Date\",\"Vendor\",\"Amount\",\"Category\",\"Notes\",\"Reconciled\"" :=
      rfl
    have hmap : List.map (csvLine ∘ csvRow) receipts =
        List.map (fun r =>
          "\"" ++ jsOr r.receipt_date "" ++ "\"" ++ "," ++
          "\"" ++ jsOr r.vendor "" ++ "\"" ++ "," ++
          "\"" ++ jsOr r.amount "" ++ "\"" ++ "," ++
          "\"" ++ jsOr r.category "" ++ "\"" ++ "," ++
          "\"" ++ jsOr r.notes "" ++ "\"" ++ "," ++
          "\"" ++ (if r.is_reconciled then "Yes" else "No") ++ "\"")
          receipts :=
      List.map_congr_left (fun r _ => by
        simp only [Function.comp, csvLine, csvRow, jsJoin, List.map,
          List.foldl, String.append_assoc])
    rw [csvContent]
    simp only [List.map_cons, List.map_map]
    rw [hhead, hmap]

/-- Witness for C6 at a one-receipt list. -/
theorem export_csv_format_witness :
    handleExportCSV
        [⟨"id0", some "2024-01-31", some "Acme", some "12.5",
          some "Travel", none, true, "u/1.jpg"⟩] =
      some "\"Date\",\"Vendor\",\"Amount\",\"Category\",\"Notes\",\"Reconciled\"\n\"2024-01-31\",\"Acme\",\"12.5\",\"Travel\",\"\",\"Yes\"" := by
  have h := (export_csv_format
    [⟨"id0", some "2024-01-31", some "Acme", some "12.5",
      some "Travel", none, true, "u/1.jpg"⟩]).2 (by simp)
  rw [h]
  rfl

/-- C7: For every authenticated user and captured file, `uploadImage`
writes the receipts store exactly once, under the user-scoped path
`uid / timestamp . (extension of the original file name)` with upsert
disabled, and returns that path; with no user, or a reported storage
error, it returns `null`; and every write it ever issues is under the
authenticated user's prefix (with no user there is no write at all). -/
theorem uploadImage_user_scoped_path (user : Option String)
    (fileName : String) (now : Nat) (uploadError : Option String) :
    (∀ uid, user = some uid →
      (uploadImage user fileName now uploadError).2 =
        [⟨uid ++ "/" ++ toString now ++ "." ++
          (fileName.splitOn ".").getLastD "", false⟩] ∧
      (uploadError = none →
        (uploadImage user fileName now uploadError).1 =
          some (uid ++ "/" ++ toString now ++ "." ++
            (fileName.splitOn ".").getLastD "")) ∧
      (uploadError ≠ none →
        (uploadImage user fileName now uploadError).1 = none) ∧
      (∀ call ∈ (uploadImage user fileName now uploadError).2,
        ∃ rest, call.path = uid ++ "/" ++ rest)) ∧
    (user = none →
      uploadImage user fileName now uploadError = (none, [])) := by
  constructor
  · intro uid huid
    subst huid
    refine ⟨?_, ?_, ?_, ?_⟩
    · rcases uploadError with _ | e <;> rfl
    · intro he
      subst he
      rfl
    · intro he
      rcases h : uploadError with _ | e
      · exact absurd h he
      · subst h
        rfl
    · intro call hc
      refine ⟨toString now ++ "." ++ (fileName.splitOn ".").getLastD "", ?_⟩
      rcases h : uploadError with _ | e <;> subst h <;>
        rw [uploadImage.eq_def] at hc <;>
        simp only [List.mem_singleton] at hc <;> subst hc <;>
        simp [String.append_assoc]
  · intro h
    subst h
    rfl

/-- Witness for C7: user `u1`, file `photo.jpg`, timestamp 1700, clean
upload. -/
theorem uploadImage_user_scoped_path_witness :
    (uploadImage (some "u1") "photo.jpg" 1700 none).1 =
      some ("u1" ++ "/" ++ toString 1700 ++ "." ++
        ("photo.jpg".splitOn ".").getLastD "") :=
  ((uploadImage_user_scoped_path (some "u1") "photo.jpg" 1700 none).1
    "u1" rfl).2.1 rfl

/-- C8: For every vendor (or null), receipt date (or null) and receipt
id, the search term `deleteReceipt` queries Drive with
(`receipt_<vendor|unknown>_<date|empty>`) never equals the file name
under which the receipt detail page uploads the image
(`receipt-<vendor|id>-<date|unknown>.jpg`): the two fixed prefixes
already differ at their eighth character. -/
theorem delete_search_never_matches_upload_name
    (vendor receiptDate : Option String) (id : String) :
    receiptSearchTerm vendor receiptDate ≠
      driveUploadFileName vendor id receiptDate := by
  intro h
  have hL : ((receiptSearchTerm vendor receiptDate).data)[7]? =
      some (Char.ofNat 95) := by
    simp only [receiptSearchTerm, String.data_append, List.append_assoc]
    rw [List.getElem?_append_left (by decide)]
    decide
  have hR : ((driveUploadFileName vendor id receiptDate).data)[7]? =
      some (Char.ofNat 45) := by
    simp only [driveUploadFileName, String.data_append, List.append_assoc]
    rw [List.getElem?_append_left (by decide)]
    decide
  rw [h, hR] at hL
  exact absurd hL (by decide)

/-- Witness for C8 at null vendor and date. -/
theorem delete_search_never_matches_upload_name_witness :
    receiptSearchTerm none none ≠ driveUploadFileName none "id0" none :=
  delete_search_never_matches_upload_name none none "id0"

/-- C10: With the Google OAuth client id unset, `useGoogleDrive` returns
a stub: `isConnected` and `isConfigured` are false and `user` is null
regardless of any stored state; `uploadReceipt` resolves to null; the
remaining operations succeed without changing the state; and none of the
operations depends on any HTTP response (no Drive call is observable). -/
theorem unconfigured_stub_behavior (st st2 : DriveState)
    (env env2 : DriveEnv) (lt : Option String) (uo : Bool)
    (gu : GoogleUser) (v d : Option String) :
    (useGoogleDrive "" st).isConnected = false ∧
    (useGoogleDrive "" st).isConfigured = false ∧
    (useGoogleDrive "" st).user = none ∧
    (useGoogleDrive "" st).uploadReceiptOp env st2 = (.ok none, st2) ∧
    (useGoogleDrive "" st).connectOp lt uo gu st2 = st2 ∧
    (useGoogleDrive "" st).disconnectOp st2 = st2 ∧
    (useGoogleDrive "" st).openFolderOp env st2 = (.ok (), st2, none) ∧
    (useGoogleDrive "" st).shareFolderOp env st2 = (.ok (), st2) ∧
    (useGoogleDrive "" st).deleteReceiptOp env v d st2 =
      (.ok (), st2, false) ∧
    (useGoogleDrive "" st).uploadReceiptOp env st2 =
      (useGoogleDrive "" st).uploadReceiptOp env2 st2 ∧
    (useGoogleDrive "" st).openFolderOp env st2 =
      (useGoogleDrive "" st).openFolderOp env2 st2 ∧
    (useGoogleDrive "" st).shareFolderOp env st2 =
      (useGoogleDrive "" st).shareFolderOp env2 st2 ∧
    (useGoogleDrive "" st).deleteReceiptOp env v d st2 =
      (useGoogleDrive "" st).deleteReceiptOp env2 v d st2 :=
  ⟨rfl, rfl, rfl, rfl, rfl, rfl, rfl, rfl, rfl, rfl, rfl, rfl, rfl⟩

end SnapTab
